import Mathlib

/-!
Verification of the document-ingestion pipeline orchestration core.

Shallow embedding of the relevant parts of the repository:
  - `app/agents/base_agent.py` (`BaseAgent.execute`, the stage envelope),
  - `app/agents/agent_orchestrator.py` (`AgentOrchestrator.process_document`),
  - `app/worker_signals.py` (`recover_pending_tasks`, `log_task_failure`),
  - `app/tasks.py` (`process_document_task` webhook payload,
    `trigger_webhooks_task`),
  - `app/services/state_manager.py` (`RedisStateManager` getters / setters).

Python exceptions are modelled as `Except String`; machine clock values are
modelled as integers (seconds); wall-clock-only metrics (`start_time`,
`end_time`, `duration_ms`) are omitted because no verified property mentions
them.  Each definition mirrors the control flow of the cited source function;
extra trace fields (`calls`, `sleeps`, `invoked`) record the observable
effects (stage-body invocations, backoff sleeps) that the source performs via
`await self.process(...)` and `await asyncio.sleep(...)`.
-/

namespace DocIngest

/-! ## Stage envelope: `BaseAgent.execute` (app/agents/base_agent.py) -/

/-- The `AgentStatus` enum of `base_agent.py`. -/
inductive AgentStatus where
  | pending
  | running
  | completed
  | failed
  | retrying
deriving Repr, DecidableEq

/-- Outcome of one invocation of the stage body `self.process(...)` under
`asyncio.wait_for`: a returned value, an `asyncio.TimeoutError`, or any other
raised exception (carrying `str(e)`). -/
inductive AttemptOutcome (R : Type) where
  | success (r : R)
  | timeout
  | failure (msg : String)
deriving Repr, DecidableEq

/-- The mutable local state of `BaseAgent.execute` together with the
observable trace: `calls` counts invocations of the stage body and `sleeps`
records, in order, the delays passed to `asyncio.sleep`.  The fields
`retry_count` and `error_count` mirror `AgentMetrics`. -/
structure ExecState (R : Type) where
  status : AgentStatus
  data : Option R
  error : Option String
  retry_count : Nat
  error_count : Nat
  calls : Nat
  sleeps : List ℚ
deriving Repr, DecidableEq

/-- Initial state of one `execute` call: `AgentMetrics` fresh, status
`PENDING`, no result, no error. -/
def initExecState (R : Type) : ExecState R :=
  { status := .pending, data := none, error := none,
    retry_count := 0, error_count := 0, calls := 0, sleeps := [] }

/-- The retry loop `for attempt in range(self.max_retries)` of
`BaseAgent.execute` (base_agent.py lines 137-162), compiled with an explicit
fuel argument; the loop is entered with `fuel = max_retries` and
`attempt = 0`, so `fuel = max_retries - attempt` throughout.

Branches, exactly as in the source:
  - the body returns: `status := COMPLETED`, store the result, `break`;
  - `asyncio.TimeoutError`: bump `error_count`, record the timeout message,
    and fall through to the next attempt (the source's `except
    asyncio.TimeoutError` clause contains no sleep, no `retry_count` bump and
    no status change);
  - any other exception: bump `error_count`, record `str(e)`; if this is not
    the last attempt, set `status := RETRYING`, bump `retry_count`, sleep
    `retry_delay * 2 ** attempt`; on the last attempt set
    `status := FAILED`. -/
def retryLoop (body : Nat → AttemptOutcome R) (max_retries : Nat)
    (retry_delay : ℚ) (timeoutMsg : String) :
    Nat → Nat → ExecState R → ExecState R
  | 0, _, st => st
  | fuel + 1, attempt, st =>
    let st1 := { st with calls := st.calls + 1 }
    match body attempt with
    | .success r =>
        { st1 with status := .completed, data := some r }
    | .timeout =>
        retryLoop body max_retries retry_delay timeoutMsg fuel (attempt + 1)
          { st1 with error_count := st1.error_count + 1,
                     error := some timeoutMsg }
    | .failure msg =>
        let st2 := { st1 with error_count := st1.error_count + 1,
                              error := some msg }
        if attempt < max_retries - 1 then
          retryLoop body max_retries retry_delay timeoutMsg fuel (attempt + 1)
            { st2 with status := .retrying,
                       retry_count := st2.retry_count + 1,
                       sleeps := st2.sleeps ++ [retry_delay * 2 ^ attempt] }
        else
          retryLoop body max_retries retry_delay timeoutMsg fuel (attempt + 1)
            { st2 with status := .failed }

/-- The `try:` block of `BaseAgent.execute`: run the stage-supplied input
validator (which may itself raise, modelled by `Except.error`); if it returns
`False`, raise `ValueError(f"Invalid input data for {self.name}")`; otherwise
set `status := RUNNING` and run the retry loop.  The retry loop absorbs all
stage-body outcomes, so the only exceptions that can escape the `try:` block
are the two validation ones. -/
def executeTry (name : String) (validator : Except String Bool)
    (body : Nat → AttemptOutcome R) (max_retries : Nat) (retry_delay : ℚ)
    (timeoutMsg : String) : Except String (ExecState R) := do
  let ok ← validator
  if ok then
    pure (retryLoop body max_retries retry_delay timeoutMsg
      max_retries 0 { initExecState R with status := .running })
  else
    throw ("Invalid input data for " ++ name)

/-- Model of `BaseAgent.execute` (base_agent.py lines 108-182).  The outer
`except Exception` clause turns any exception escaping the `try:` block into
a FAILED result with `error = str(e)`; the function then returns an
`AgentResult` built from the final state.  The `Except` codomain makes the
absence of uncaught exceptions a provable statement rather than a typing
accident: an uncaught exception would be an `Except.error` value. -/
def execute (name : String) (validator : Except String Bool)
    (body : Nat → AttemptOutcome R) (max_retries : Nat) (retry_delay : ℚ)
    (timeoutMsg : String) : Except String (ExecState R) :=
  match executeTry name validator body max_retries retry_delay timeoutMsg with
  | .ok st => .ok st
  | .error e =>
      .ok { initExecState R with status := .failed, error := some e }

/-! ## Pipeline orchestrator: `AgentOrchestrator.process_document`
(app/agents/agent_orchestrator.py lines 49-172) -/

/-- The claim-relevant part of the dict an agent's `process` returns: the
`"success"` flag read via `agent_result.get("success", False)` and the
optional `"error"` entry read via `agent_result.get("error", "Unknown
error")`.  The remaining payload entries feed the next stage's input only
through the abstract `upd` merge below. -/
structure AgentOut where
  success : Bool
  error : Option String
deriving Repr, DecidableEq

/-- One entry of `self.pipeline_stages`: the stage name, the agent's `name`
attribute, and the agent's `process` coroutine, which may raise (modelled by
`Except.error (str e)`). -/
structure Stage (Data : Type) where
  name : String
  agentName : String
  process : Data → Except String AgentOut

/-- The claim-relevant fields of the `pipeline_results` dict built by
`process_document`, plus the `invoked` trace listing, in order, the stages
whose `agent.process` was actually called. -/
structure PipeResults where
  document_id : String
  current_stage : String
  stages_completed : List String
  overall_success : Bool
  error_details : Option String
  agent_results : List (String × AgentOut)
  invoked : List String
deriving Repr, DecidableEq

/-- Error message recorded when a stage returns an unsuccessful result
(agent_orchestrator.py line 99). -/
def agentFailMsg (agentName : String) (out : AgentOut) : String :=
  "Agent " ++ agentName ++ " failed: " ++ out.error.getD "Unknown error"

/-- Error message recorded when a stage raises
(agent_orchestrator.py line 129). -/
def stageRaiseMsg (stageName msg : String) : String :=
  "Stage '" ++ stageName ++ "' failed with error: " ++ msg

/-- The `for stage_name, agent in self.pipeline_stages` loop of
`process_document` (lines 81-136).  `upd` models
`current_data.update(agent_result)`.  Faithful to the source:

  - each iteration first sets `current_stage` and calls `agent.process`
    (recorded in `invoked`);
  - an unsuccessful result records `error_details` and `break`s;
  - a raised exception records `error_details` and `break`s;
  - a successful result is appended to `agent_results`, merged into the data
    for the next stage, and the stage name is appended to
    `stages_completed`. -/
def runStages (upd : Data → AgentOut → Data) :
    List (Stage Data) → Data → PipeResults → PipeResults
  | [], _, res => res
  | s :: rest, data, res =>
    let res1 := { res with current_stage := s.name,
                           invoked := res.invoked ++ [s.name] }
    match s.process data with
    | .error msg =>
        { res1 with error_details := some (stageRaiseMsg s.name msg) }
    | .ok out =>
        if out.success then
          runStages upd rest (upd data out)
            { res1 with
                agent_results := res1.agent_results ++ [(s.name, out)],
                stages_completed := res1.stages_completed ++ [s.name] }
        else
          { res1 with error_details := some (agentFailMsg s.agentName out) }

/-- Model of `AgentOrchestrator.process_document` (lines 49-172).  It receives only
the document data — no `job_id` lookup and no stored `PipelineState` are
consulted — initialises a fresh `pipeline_results`, runs the stage loop, and
sets `overall_success` to whether every configured stage completed
(line 139: `len(stages_completed) == len(self.pipeline_stages)`).  Metric
updates and callbacks are omitted (no claim mentions them). -/
def process_document (upd : Data → AgentOut → Data)
    (stages : List (Stage Data)) (document_id : String) (data : Data) :
    PipeResults :=
  let res0 : PipeResults :=
    { document_id := document_id, current_stage := "initializing",
      stages_completed := [], overall_success := false,
      error_details := none, agent_results := [], invoked := [] }
  let res := runStages upd stages data res0
  { res with
      overall_success := res.stages_completed.length == stages.length }

/-! ## Shared state store: `RedisStateManager`
(app/services/state_manager.py) -/

/-- Raw outcome of `self.redis_client.get(key)`: a stored string, a missing
key (`None`), or a raised connection error. -/
inductive StoreGet where
  | found (raw : String)
  | absent
  | connError (msg : String)
deriving Repr, DecidableEq

/-- A write against Redis: `ttl = some n` models
`setex(key, n, value)`, `ttl = none` models a plain `set(key, value)` — a
plain SET stores the value with no expiry (and clears any expiry the key
had). -/
structure StoreWrite where
  key : String
  ttl : Option Nat
deriving Repr, DecidableEq

/-- Model of `RedisStateManager.get_document_metadata` (state_manager.py lines
56-64).  `parse` models `json.loads` (returning `none` when it raises).  The
`try/except` catches every exception — including a connection failure — and
returns `None`, the same value returned for a missing key. -/
def get_document_metadata (parse : String → Option M) (g : StoreGet) :
    Option M :=
  match g with
  | .found raw => parse raw
  | .absent => none
  | .connError _ => none

/-- Model of `RedisStateManager.get_job_state` (state_manager.py lines 91-99); same
shape as `get_document_metadata`, `job:` prefix instead of `doc:`. -/
def get_job_state (parse : String → Option M) (g : StoreGet) : Option M :=
  match g with
  | .found raw => parse raw
  | .absent => none
  | .connError _ => none

/-- Model of `RedisStateManager.set_document_metadata` (state_manager.py lines
42-54): `setex(f"doc:{document_id}", ttl, json.dumps(metadata))` with
`ttl: int = 86400`.  The write it performs always carries the TTL. -/
def set_document_metadata_write (document_id : String)
    (ttl : Nat := 86400) : StoreWrite :=
  { key := "doc:" ++ document_id, ttl := some ttl }

/-! ## Recovery monitor: `recover_pending_tasks` and `log_task_failure`
(app/worker_signals.py) -/

/-- The fields of a parsed `DocumentMetadata` record that the recovery and
failure paths read or write.  `uploaded_at` is the parsed upload timestamp
in seconds (`none` models a missing or empty `uploaded_at` string, which the
scan skips). -/
structure DocMetadata where
  document_id : String
  celery_task_id : Option String
  uploaded_at : Option Int
  status : String
  auto_recovered : Bool
  recovery_time : Option Int
  error : Option String
  failed_at : Option Int
deriving Repr, DecidableEq

/-- Task status reported by `AsyncResult(celery_task_id).status`. -/
inductive QueueStatus where
  | pending
  | started
  | retry
  | success
  | failure
deriving Repr, DecidableEq

/-- What the per-record body of the recovery scan did: nothing, or a
re-enqueue carrying the updated metadata and the store write that saved
it. -/
structure RecoveryAction where
  requeued : Bool
  newMeta : Option DocMetadata
  write : Option StoreWrite
deriving Repr, DecidableEq

/-- Grace period of the recovery scan: `timedelta(minutes=5)`, in seconds. -/
def gracePeriod : Int := 300

/-- The per-record body of `recover_pending_tasks` (worker_signals.py lines
39-99) for one parsed `DocumentMetadata` record.  `now` is
`datetime.utcnow()` and `newTaskId` the id of the task that
`process_document_task.delay(...)` would return.  Exactly as in the source:

  - no `celery_task_id` → skip;
  - queue status not `PENDING` → skip;
  - missing/empty `uploaded_at` → skip;
  - `now - uploaded_at` not strictly greater than 5 minutes → skip;
  - otherwise re-enqueue, then store the metadata updated with the new task
    id, `status = "processing"`, `auto_recovered = True` and
    `recovery_time = now`, via a plain `r.set` (no TTL). -/
def recoverRecord (meta : DocMetadata) (qstatus : QueueStatus) (now : Int)
    (newTaskId : String) : RecoveryAction :=
  match meta.celery_task_id with
  | none => { requeued := false, newMeta := none, write := none }
  | some _ =>
    if qstatus = .pending then
      match meta.uploaded_at with
      | none => { requeued := false, newMeta := none, write := none }
      | some t =>
        if now - t > gracePeriod then
          let m :=
            { meta with celery_task_id := some newTaskId,
                        status := "processing",
                        auto_recovered := true,
                        recovery_time := some now }
          { requeued := true, newMeta := some m,
            write := some { key := "doc:" ++ meta.document_id, ttl := none } }
        else { requeued := false, newMeta := none, write := none }
    else { requeued := false, newMeta := none, write := none }

/-- The metadata update of `log_task_failure` (worker_signals.py lines
133-140): sets `status = "failed"`, records `str(exception)` and a failure
timestamp, and saves with a plain `r.set` (no TTL). -/
def log_task_failure_update (meta : DocMetadata) (excMsg : String)
    (now : Int) : DocMetadata × StoreWrite :=
  ({ meta with status := "failed", error := some excMsg,
               failed_at := some now },
   { key := "doc:" ++ meta.document_id, ttl := none })

/-! ## Webhook dispatch: `process_document_task` payload and
`trigger_webhooks_task` (app/tasks.py) -/

/-- A JSON-ish value, enough to state facts about the wire payload's
fields. -/
inductive JVal where
  | s (v : String)
  | obj (fields : List (String × String))
deriving Repr, DecidableEq

/-- The webhook payload built by `process_document_task` (tasks.py lines
131-139) for a completed, validation-accepted job, as the association list
of its JSON fields in source order.  `trigger_webhooks_task` posts this dict
unchanged (`json=payload`, line 210). -/
def buildWebhookPayload (timestamp document_id job_id : String)
    (schema : JVal) : List (String × JVal) :=
  [("event", .s "document.processed"),
   ("timestamp", .s timestamp),
   ("document_id", .s document_id),
   ("job_id", .s job_id),
   ("schema", schema)]

/-- A `WebhookRegistration` as read back from the store by
`list_webhooks`: `events = none` models a record with no `"events"` key, for
which the dispatcher substitutes `["document.processed"]`. -/
structure Webhook where
  id : String
  url : String
  active : Bool
  events : Option (List String)

/-- Model of `webhook.get("events", ["document.processed"])` (tasks.py line 202). -/
def eventsOf (w : Webhook) : List String :=
  w.events.getD ["document.processed"]

/-- Outcome of the HTTP POST to one endpoint: a response with a status code,
or a raised transport exception (carrying `str(e)`). -/
inductive Delivery where
  | response (code : Nat)
  | transportError (msg : String)
deriving Repr, DecidableEq

/-- One entry of `results["details"]`. -/
structure DispatchDetail where
  webhook_id : String
  outcome : String
  status_code : Option Nat
  error : Option String
deriving Repr, DecidableEq

/-- The `results` dict returned by `trigger_webhooks_task`. -/
structure DispatchResults where
  webhooks_triggered : Nat
  webhooks_failed : Nat
  details : List DispatchDetail
deriving Repr, DecidableEq

/-- The detail record the dispatcher appends for one attempted endpoint,
as a function of that endpoint and its own delivery outcome only
(tasks.py lines 215-238). -/
def detailFor (w : Webhook) : Delivery → DispatchDetail
  | .response code =>
    if 200 ≤ code ∧ code < 300 then
      { webhook_id := w.id, outcome := "success",
        status_code := some code, error := none }
    else
      { webhook_id := w.id, outcome := "failed",
        status_code := some code, error := none }
  | .transportError msg =>
      { webhook_id := w.id, outcome := "error",
        status_code := none, error := some msg }

/-- Whether a delivery outcome counts into `webhooks_triggered` (2xx) as
opposed to `webhooks_failed`. -/
def deliveryOk : Delivery → Bool
  | .response code => decide (200 ≤ code ∧ code < 300)
  | .transportError _ => false

/-- Whether the dispatch loop attempts delivery to `w` for event `ev`:
`if not webhook.get("active"): continue` and the subscription check
(tasks.py lines 198-204). -/
def attempted (ev : String) (w : Webhook) : Bool :=
  w.active && (eventsOf w).contains ev

/-- The `for webhook in webhooks` loop of `trigger_webhooks_task` (tasks.py
lines 197-239) with its accumulator.  `deliver` models the HTTP POST of the
payload to one endpoint; a raised transport exception is caught by the
per-endpoint `except Exception` clause and recorded, never propagated, and
the loop always proceeds to the next endpoint. -/
def dispatchLoop (ev : String) (deliver : Webhook → Delivery) :
    List Webhook → DispatchResults → DispatchResults
  | [], res => res
  | w :: rest, res =>
    if attempted ev w then
      let d := deliver w
      dispatchLoop ev deliver rest
        { webhooks_triggered :=
            res.webhooks_triggered + (if deliveryOk d then 1 else 0),
          webhooks_failed :=
            res.webhooks_failed + (if deliveryOk d then 0 else 1),
          details := res.details ++ [detailFor w d] }
    else
      dispatchLoop ev deliver rest res

/-- Model of `trigger_webhooks_task` (tasks.py lines 170-244): starts from zero
counts, walks every webhook returned by `list_webhooks(active_only=True)`
and returns the accumulated results.  It is a total function of the webhook
list, the event and the per-endpoint delivery outcomes: per-endpoint
failures are data, not exceptions. -/
def trigger_webhooks (webhooks : List Webhook) (ev : String)
    (deliver : Webhook → Delivery) : DispatchResults :=
  dispatchLoop ev deliver webhooks
    { webhooks_triggered := 0, webhooks_failed := 0, details := [] }

/-! ## Theorems about the stage envelope -/

/-- Retry loop on a body that raises a (non-timeout) exception on every
attempt: running the remaining `fuel` attempts starting at index `attempt`
(with `attempt + fuel = max_retries`) performs `fuel` body calls, ends
FAILED, records the last attempt's error, and adds `fuel - 1` to
`retry_count`. -/
theorem retryLoop_allFail (msg : Nat → String) (N : Nat) (rd : ℚ)
    (tm : String) :
    ∀ fuel attempt (st : ExecState Unit), attempt + fuel = N → 0 < fuel →
      (retryLoop (fun n => AttemptOutcome.failure (msg n)) N rd tm
          fuel attempt st).status = .failed ∧
      (retryLoop (fun n => AttemptOutcome.failure (msg n)) N rd tm
          fuel attempt st).error = some (msg (N - 1)) ∧
      (retryLoop (fun n => AttemptOutcome.failure (msg n)) N rd tm
          fuel attempt st).calls = st.calls + fuel ∧
      (retryLoop (fun n => AttemptOutcome.failure (msg n)) N rd tm
          fuel attempt st).retry_count = st.retry_count + (fuel - 1) := by
  intro fuel
  induction fuel with
  | zero => intro attempt st _ h0; exact absurd h0 (by omega)
  | succ k ih =>
    intro attempt st hN _
    by_cases hcond : attempt < N - 1
    · have hk : 0 < k := by omega
      have hstep :
          retryLoop (fun n => AttemptOutcome.failure (msg n)) N rd tm
              (k + 1) attempt st =
            retryLoop (fun n => AttemptOutcome.failure (msg n)) N rd tm
              k (attempt + 1)
              { st with status := .retrying, error := some (msg attempt),
                        error_count := st.error_count + 1,
                        retry_count := st.retry_count + 1,
                        calls := st.calls + 1,
                        sleeps := st.sleeps ++ [rd * 2 ^ attempt] } := by
        simp only [retryLoop, if_pos hcond]
      obtain ⟨h1, h2, h3, h4⟩ := ih (attempt + 1)
        { st with status := .retrying, error := some (msg attempt),
                  error_count := st.error_count + 1,
                  retry_count := st.retry_count + 1,
                  calls := st.calls + 1,
                  sleeps := st.sleeps ++ [rd * 2 ^ attempt] }
        (by omega) hk
      rw [hstep]
      refine ⟨h1, h2, ?_, ?_⟩
      · rw [h3]
        show st.calls + 1 + k = st.calls + (k + 1)
        omega
      · rw [h4]
        show st.retry_count + 1 + (k - 1) = st.retry_count + (k + 1 - 1)
        omega
    · have hA : attempt = N - 1 := by omega
      have hk0 : k = 0 := by omega
      subst hk0
      have hstep :
          retryLoop (fun n => AttemptOutcome.failure (msg n)) N rd tm
              (0 + 1) attempt st =
            { st with status := .failed, error := some (msg attempt),
                      error_count := st.error_count + 1,
                      calls := st.calls + 1 } := by
        simp only [retryLoop, if_neg hcond]
      rw [hstep]
      refine ⟨rfl, ?_, ?_, ?_⟩
      · show some (msg attempt) = some (msg (N - 1))
        rw [hA]
      · show st.calls + 1 = st.calls + (0 + 1)
        omega
      · show st.retry_count = st.retry_count + (0 + 1 - 1)
        omega

/-- C2: with `max_retries = N ≥ 1`, valid input, and a stage body raising a
transient (non-timeout) exception on every invocation, `execute` invokes the
body exactly `N` times and returns a FAILED result with the last error
recorded and `retry_count = N - 1`. -/
theorem envelope_transient_exhaustion (name : String) (N : Nat)
    (hN : 1 ≤ N) (msg : Nat → String) (rd : ℚ) (tm : String) :
    ∃ r : ExecState Unit,
      execute name (Except.ok true)
          (fun n => AttemptOutcome.failure (msg n)) N rd tm = Except.ok r ∧
      r.status = .failed ∧ r.calls = N ∧ r.retry_count = N - 1 ∧
      r.error = some (msg (N - 1)) := by
  refine ⟨_, rfl, ?_⟩
  have h := retryLoop_allFail msg N rd tm N 0
    { initExecState Unit with status := .running } (by omega) (by omega)
  obtain ⟨h1, h2, h3, h4⟩ := h
  refine ⟨h1, ?_, ?_, h2⟩
  · rw [h3]
    show 0 + N = N
    omega
  · rw [h4]
    show 0 + (N - 1) = N - 1
    omega

/-- Witness for C2 at `N = 3`: three body invocations, FAILED, the third
attempt's error recorded, `retry_count = 2`. -/
theorem envelope_transient_exhaustion_w :
    1 ≤ 3 ∧
    ∃ r : ExecState Unit,
      execute "classification" (Except.ok true)
          (fun n => AttemptOutcome.failure ("boom " ++ toString n)) 3 1
          "Timeout after 30.0s" = Except.ok r ∧
      r.status = .failed ∧ r.calls = 3 ∧ r.retry_count = 3 - 1 ∧
      r.error = some ("boom " ++ toString (3 - 1)) :=
  ⟨by omega,
   envelope_transient_exhaustion "classification" 3 (by omega)
     (fun n => "boom " ++ toString n) 1 "Timeout after 30.0s"⟩

/-- C3 (code-bug evidence): with `max_retries = 3` and a stage body that
times out on every attempt, `execute` performs the 3 attempts with NO
backoff sleep between them (`sleeps = []`, `retry_count = 0`) and returns a
result whose final status is `RUNNING` — not the terminal `FAILED` the spec
requires — with the timeout error recorded.  The source's
`except asyncio.TimeoutError` clause (base_agent.py lines 147-150) lacks the
sleep/`RETRYING`/`FAILED` bookkeeping of the adjacent `except Exception`
clause. -/
theorem envelope_all_timeouts_end_running :
    execute (R := Unit) "ocr_processing" (Except.ok true)
        (fun _ => AttemptOutcome.timeout) 3 1 "Timeout after 30.0s" =
      Except.ok { status := .running, data := none,
                  error := some "Timeout after 30.0s",
                  retry_count := 0, error_count := 3, calls := 3,
                  sleeps := [] } := by
  rfl

/-- C5: for every input validator (including ones that reject or raise) and
every stage body (including ones that time out or raise on any attempt),
`execute` never raises: it always returns a result value, every failure mode
encoded in its `status`/`error` fields. -/
theorem envelope_never_raises {R : Type} (name : String)
    (validator : Except String Bool) (body : Nat → AttemptOutcome R)
    (N : Nat) (rd : ℚ) (tm : String) :
    ∃ r, execute name validator body N rd tm = Except.ok r := by
  cases validator with
  | error e => exact ⟨_, rfl⟩
  | ok b => cases b <;> exact ⟨_, rfl⟩

/-! ## Theorems about the orchestrator -/

/-- Stage loop on `pre ++ s :: post` where every stage of `pre` always
succeeds and `s` always returns the unsuccessful result `out`: the loop
records `s`'s failure message, invokes exactly the stages of `pre` and then
`s`, and completes exactly the stages of `pre`. -/
theorem runStages_halt {Data : Type} (upd : Data → AgentOut → Data)
    (s : Stage Data) (post : List (Stage Data)) (out : AgentOut)
    (hs : ∀ d, s.process d = Except.ok out) (hout : out.success = false) :
    ∀ (pre : List (Stage Data)) (data : Data) (res : PipeResults),
      (∀ s' ∈ pre, ∀ d, ∃ o, s'.process d = Except.ok o ∧
          o.success = true) →
      (runStages upd (pre ++ s :: post) data res).error_details
          = some (agentFailMsg s.agentName out) ∧
      (runStages upd (pre ++ s :: post) data res).invoked
          = res.invoked ++ pre.map Stage.name ++ [s.name] ∧
      (runStages upd (pre ++ s :: post) data res).stages_completed
          = res.stages_completed ++ pre.map Stage.name := by
  intro pre
  induction pre with
  | nil =>
    intro data res _
    simp [runStages, hs data, hout]
  | cons p pre' ih =>
    intro data res hpre
    obtain ⟨o, hpo, hosucc⟩ := hpre p (List.mem_cons_self p pre') data
    have hpre' : ∀ s' ∈ pre', ∀ d, ∃ o, s'.process d = Except.ok o ∧
        o.success = true :=
      fun s' hmem => hpre s' (List.mem_cons_of_mem p hmem)
    have hstep : runStages upd ((p :: pre') ++ s :: post) data res
        = runStages upd (pre' ++ s :: post) (upd data o)
            { res with current_stage := p.name,
                       invoked := res.invoked ++ [p.name],
                       agent_results := res.agent_results ++ [(p.name, o)],
                       stages_completed :=
                         res.stages_completed ++ [p.name] } := by
      simp [runStages, hpo, hosucc]
    rw [hstep]
    obtain ⟨h1, h2, h3⟩ := ih (upd data o) _ hpre'
    refine ⟨h1, ?_, ?_⟩
    · rw [h2]; simp
    · rw [h3]; simp

/-- C4: if every stage before `s` succeeds and stage `s` returns a failed
result, `process_document` records `s`'s error as the pipeline error, ends
with `overall_success = false`, and invokes no stage after `s` — the trace
of stage-body invocations is exactly the stages before `s` followed by `s`
itself. -/
theorem orchestrator_halts_on_failed_stage {Data : Type}
    (upd : Data → AgentOut → Data) (pre post : List (Stage Data))
    (s : Stage Data) (out : AgentOut) (document_id : String) (data : Data)
    (hpre : ∀ s' ∈ pre, ∀ d, ∃ o, s'.process d = Except.ok o ∧
        o.success = true)
    (hs : ∀ d, s.process d = Except.ok out) (hout : out.success = false) :
    (process_document upd (pre ++ s :: post) document_id
        data).overall_success = false ∧
    (process_document upd (pre ++ s :: post) document_id
        data).error_details = some (agentFailMsg s.agentName out) ∧
    (process_document upd (pre ++ s :: post) document_id data).invoked
        = pre.map Stage.name ++ [s.name] := by
  obtain ⟨h1, h2, h3⟩ := runStages_halt upd s post out hs hout pre data
    { document_id := document_id, current_stage := "initializing",
      stages_completed := [], overall_success := false,
      error_details := none, agent_results := [], invoked := [] } hpre
  refine ⟨?_, ?_, ?_⟩
  · simp only [process_document]
    rw [h3]
    simp only [List.nil_append, List.length_append, List.length_map,
      List.length_cons, beq_eq_false_iff_ne]
    omega
  · simp only [process_document]
    exact h1
  · simp only [process_document]
    rw [h2]
    simp

/-- A one-stage demonstration pipeline used by concrete instantiations: the
stage always succeeds. -/
def demoOk (nm ag : String) : Stage Unit :=
  { name := nm, agentName := ag,
    process := fun _ => Except.ok { success := true, error := none } }

/-- A failing demonstration stage: always returns
`{"success": False, "error": "boom"}`. -/
def demoFail (nm ag : String) : Stage Unit :=
  { name := nm, agentName := ag,
    process := fun _ =>
      Except.ok { success := false, error := some "boom" } }

/-- Witness for C4 on a concrete 3-stage pipeline whose middle stage always
fails: the pipeline is not successful, the error comes from the middle
stage's agent, and only the first two stage bodies are invoked. -/
theorem orchestrator_halts_on_failed_stage_w :
    (∀ s' ∈ [demoOk "validation" "validation_agent"], ∀ d : Unit,
        ∃ o, s'.process d = Except.ok o ∧ o.success = true) ∧
    (∀ d : Unit,
        (demoFail "classification" "classification_agent").process d
          = Except.ok { success := false, error := some "boom" }) ∧
    (process_document (fun _ _ => ())
        ([demoOk "validation" "validation_agent"] ++
          demoFail "classification" "classification_agent" ::
            [demoOk "ocr_processing" "mistral_ocr_agent"]) "doc-1"
        ()).overall_success = false ∧
    (process_document (fun _ _ => ())
        ([demoOk "validation" "validation_agent"] ++
          demoFail "classification" "classification_agent" ::
            [demoOk "ocr_processing" "mistral_ocr_agent"]) "doc-1"
        ()).error_details
      = some (agentFailMsg "classification_agent"
          { success := false, error := some "boom" }) ∧
    (process_document (fun _ _ => ())
        ([demoOk "validation" "validation_agent"] ++
          demoFail "classification" "classification_agent" ::
            [demoOk "ocr_processing" "mistral_ocr_agent"]) "doc-1"
        ()).invoked
      = [demoOk "validation" "validation_agent"].map Stage.name ++
          ["classification"] := by
  have hpre : ∀ s' ∈ [demoOk "validation" "validation_agent"], ∀ d : Unit,
      ∃ o, s'.process d = Except.ok o ∧ o.success = true := by
    intro s' hmem d
    rw [List.mem_singleton.mp hmem]
    exact ⟨{ success := true, error := none }, rfl, rfl⟩
  have hs : ∀ d : Unit,
      (demoFail "classification" "classification_agent").process d
        = Except.ok { success := false, error := some "boom" } :=
    fun _ => rfl
  refine ⟨hpre, hs, ?_⟩
  exact orchestrator_halts_on_failed_stage (fun _ _ => ())
    [demoOk "validation" "validation_agent"]
    [demoOk "ocr_processing" "mistral_ocr_agent"]
    (demoFail "classification" "classification_agent")
    { success := false, error := some "boom" } "doc-1" () hpre hs rfl

/-- The trace of invoked stages only grows: whatever the accumulated
results, the loop appends to `invoked`. -/
theorem runStages_invoked_mono {Data : Type} (upd : Data → AgentOut → Data) :
    ∀ (stages : List (Stage Data)) (data : Data) (res : PipeResults),
      ∃ tail, (runStages upd stages data res).invoked
        = res.invoked ++ tail := by
  intro stages
  induction stages with
  | nil => intro data res; exact ⟨[], by simp [runStages]⟩
  | cons s rest ih =>
    intro data res
    rcases hp : s.process data with msg | out
    · exact ⟨[s.name], by simp [runStages, hp]⟩
    · by_cases hsucc : out.success = true
      · obtain ⟨tail, htail⟩ := ih (upd data out)
          { res with current_stage := s.name,
                     invoked := res.invoked ++ [s.name],
                     agent_results := res.agent_results ++ [(s.name, out)],
                     stages_completed := res.stages_completed ++ [s.name] }
        refine ⟨[s.name] ++ tail, ?_⟩
        have hstep : runStages upd (s :: rest) data res
            = runStages upd rest (upd data out)
              { res with current_stage := s.name,
                         invoked := res.invoked ++ [s.name],
                         agent_results :=
                           res.agent_results ++ [(s.name, out)],
                         stages_completed :=
                           res.stages_completed ++ [s.name] } := by
          simp [runStages, hp, hsucc]
        rw [hstep, htail]
        simp
      · refine ⟨[s.name], ?_⟩
        have hb : out.success = false := by
          cases h : out.success
          · rfl
          · exact absurd h hsucc
        simp [runStages, hp, hb]

/-- C1 (amended): `process_document` consults no stored pipeline state — it
does not even receive a `job_id`-keyed `PipelineState` — and on every
invocation (including a redelivery of a job that already finished) it starts
the pipeline over: the first configured stage's body is always invoked
first. -/
theorem orchestrator_always_reruns_first_stage {Data : Type}
    (upd : Data → AgentOut → Data) (s : Stage Data)
    (stages : List (Stage Data)) (document_id : String) (data : Data) :
    (process_document upd (s :: stages) document_id
        data).invoked.head? = some s.name := by
  show (runStages upd (s :: stages) data _).invoked.head? = some s.name
  rcases hp : s.process data with msg | out
  · simp [runStages, hp]
  · by_cases hsucc : out.success = true
    · obtain ⟨tail, htail⟩ := runStages_invoked_mono upd stages (upd data out)
        { document_id := document_id, current_stage := s.name,
          stages_completed := [] ++ [s.name], overall_success := false,
          error_details := none, agent_results := [] ++ [(s.name, out)],
          invoked := [] ++ [s.name] }
      have hstep : runStages upd (s :: stages) data
          { document_id := document_id, current_stage := "initializing",
            stages_completed := [], overall_success := false,
            error_details := none, agent_results := [], invoked := [] }
          = runStages upd stages (upd data out)
            { document_id := document_id, current_stage := s.name,
              stages_completed := [] ++ [s.name], overall_success := false,
              error_details := none, agent_results := [] ++ [(s.name, out)],
              invoked := [] ++ [s.name] } := by
        simp [runStages, hp, hsucc]
      rw [hstep, htail]
      simp
    · have hb : out.success = false := by
        cases h : out.success
        · rfl
        · exact absurd h hsucc
      simp [runStages, hp, hb]

/-- C1 (counterexample): a concrete (re-)invocation of the orchestrator —
for a job in any prior state, terminal included, since `process_document`
takes no account of prior state — performs a stage invocation: the first
stage's body runs.  This falsifies "performs no stage invocations". -/
theorem orchestrator_reinvocation_invokes_stages :
    (process_document (fun _ _ => ())
        [demoOk "validation" "validation_agent"] "doc-1" ()).invoked
      = ["validation"] := by
  rfl

/-! ## Theorems about the recovery monitor -/

/-- C6: for a scanned record that carries a task-queue handle and an upload
timestamp, the scan re-enqueues exactly when the queue still reports
`PENDING` and the upload is strictly older than the 5-minute grace period;
on re-enqueue the stored record carries the new task handle,
`auto_recovered = true` and the recovery timestamp.  In particular a record
younger than (or exactly at) the grace period is never re-enqueued. -/
theorem recovery_requeue_iff (meta : DocMetadata) (h : String) (t : Int)
    (qs : QueueStatus) (now : Int) (newId : String)
    (hh : meta.celery_task_id = some h) (ht : meta.uploaded_at = some t) :
    ((recoverRecord meta qs now newId).requeued = true ↔
      (qs = QueueStatus.pending ∧ now - t > gracePeriod)) ∧
    ((recoverRecord meta qs now newId).requeued = true →
      (recoverRecord meta qs now newId).newMeta
        = some { meta with celery_task_id := some newId,
                           status := "processing",
                           auto_recovered := true,
                           recovery_time := some now }) := by
  by_cases hq : qs = QueueStatus.pending
  · by_cases hg : now - t > gracePeriod
    · have hact : recoverRecord meta qs now newId =
          { requeued := true,
            newMeta := some { meta with celery_task_id := some newId,
                                        status := "processing",
                                        auto_recovered := true,
                                        recovery_time := some now },
            write := some { key := "doc:" ++ meta.document_id,
                            ttl := none } } := by
        simp [recoverRecord, hh, ht, hq, hg]
      rw [hact]
      exact ⟨by simp [hq, hg], fun _ => rfl⟩
    · have hact : recoverRecord meta qs now newId =
          { requeued := false, newMeta := none, write := none } := by
        simp [recoverRecord, hh, ht, hq, hg]
      rw [hact]
      simp [hg]
  · have hact : recoverRecord meta qs now newId =
        { requeued := false, newMeta := none, write := none } := by
      simp [recoverRecord, hh, hq]
    rw [hact]
    simp [hq]

/-- A concrete scanned record: task handle `t1`, uploaded at time 0,
external status still pending. -/
def demoMeta : DocMetadata :=
  { document_id := "d1", celery_task_id := some "t1",
    uploaded_at := some 0, status := "pending", auto_recovered := false,
    recovery_time := none, error := none, failed_at := none }

/-- Witness for C6: the spec's end-to-end scenario — a record uploaded 10
minutes ago (600 s > 300 s grace) whose queue status is still `PENDING` is
re-enqueued with a new task handle and `auto_recovered = true`. -/
theorem recovery_requeue_iff_w :
    demoMeta.celery_task_id = some "t1" ∧
    demoMeta.uploaded_at = some 0 ∧
    (((recoverRecord demoMeta QueueStatus.pending 600 "t2").requeued = true ↔
        (QueueStatus.pending = QueueStatus.pending ∧
          (600 : Int) - 0 > gracePeriod)) ∧
     ((recoverRecord demoMeta QueueStatus.pending 600 "t2").requeued = true →
        (recoverRecord demoMeta QueueStatus.pending 600 "t2").newMeta
          = some { demoMeta with celery_task_id := some "t2",
                                 status := "processing",
                                 auto_recovered := true,
                                 recovery_time := some 600 })) :=
  ⟨rfl, rfl,
   recovery_requeue_iff demoMeta "t1" 0 QueueStatus.pending 600 "t2" rfl rfl⟩

/-! ## Theorems about webhook dispatch -/

/-- Dispatch loop with an arbitrary accumulator: it walks the whole list,
appends exactly one detail — a function of the endpoint and of its own
delivery outcome only — for every active, subscribed endpoint, and counts
2xx deliveries into `webhooks_triggered` and everything else into
`webhooks_failed`. -/
theorem dispatchLoop_spec (ev : String) (deliver : Webhook → Delivery) :
    ∀ (ws : List Webhook) (res : DispatchResults),
      (dispatchLoop ev deliver ws res).details
        = res.details ++
            (ws.filter (attempted ev)).map (fun w => detailFor w (deliver w)) ∧
      (dispatchLoop ev deliver ws res).webhooks_triggered
        = res.webhooks_triggered +
            (ws.filter (attempted ev)).countP
              (fun w => deliveryOk (deliver w)) ∧
      (dispatchLoop ev deliver ws res).webhooks_failed
        = res.webhooks_failed +
            (ws.filter (attempted ev)).countP
              (fun w => !deliveryOk (deliver w)) := by
  intro ws
  induction ws with
  | nil => intro res; simp [dispatchLoop]
  | cons w rest ih =>
    intro res
    by_cases hw : attempted ev w = true
    · have hstep : dispatchLoop ev deliver (w :: rest) res
          = dispatchLoop ev deliver rest
            { webhooks_triggered := res.webhooks_triggered +
                (if deliveryOk (deliver w) then 1 else 0),
              webhooks_failed := res.webhooks_failed +
                (if deliveryOk (deliver w) then 0 else 1),
              details := res.details ++ [detailFor w (deliver w)] } := by
        simp [dispatchLoop, hw]
      obtain ⟨h1, h2, h3⟩ := ih
        { webhooks_triggered := res.webhooks_triggered +
            (if deliveryOk (deliver w) then 1 else 0),
          webhooks_failed := res.webhooks_failed +
            (if deliveryOk (deliver w) then 0 else 1),
          details := res.details ++ [detailFor w (deliver w)] }
      rw [hstep]
      refine ⟨?_, ?_, ?_⟩
      · rw [h1]; simp [hw]
      · rw [h2]
        by_cases hd : deliveryOk (deliver w) = true <;>
          simp [hw, hd, List.countP_cons] <;> omega
      · rw [h3]
        by_cases hd : deliveryOk (deliver w) = true <;>
          simp [hw, hd, List.countP_cons] <;> omega
    · have hw' : attempted ev w = false := by
        cases h : attempted ev w
        · rfl
        · exact absurd h hw
      have hstep : dispatchLoop ev deliver (w :: rest) res
          = dispatchLoop ev deliver rest res := by
        simp [dispatchLoop, hw']
      rw [hstep]
      obtain ⟨h1, h2, h3⟩ := ih res
      refine ⟨?_, ?_, ?_⟩ <;> simp [h1, h2, h3, hw']

/-- C7: the dispatcher attempts delivery to every active registration
subscribed to the payload's event — whatever any earlier endpoint's delivery
returned or threw, since `deliver` is arbitrary — records exactly one
outcome per attempted endpoint as a function of that endpoint's own delivery
alone, and returns normally (the result is a total function of the
inputs; a per-endpoint non-2xx response or transport error only moves that
endpoint's count from `webhooks_triggered` to `webhooks_failed`). -/
theorem dispatch_delivers_to_all (webhooks : List Webhook) (ev : String)
    (deliver : Webhook → Delivery) :
    (trigger_webhooks webhooks ev deliver).details
      = (webhooks.filter (attempted ev)).map
          (fun w => detailFor w (deliver w)) ∧
    (trigger_webhooks webhooks ev deliver).webhooks_triggered
      = (webhooks.filter (attempted ev)).countP
          (fun w => deliveryOk (deliver w)) ∧
    (trigger_webhooks webhooks ev deliver).webhooks_failed
      = (webhooks.filter (attempted ev)).countP
          (fun w => !deliveryOk (deliver w)) := by
  obtain ⟨h1, h2, h3⟩ := dispatchLoop_spec ev deliver webhooks
    { webhooks_triggered := 0, webhooks_failed := 0, details := [] }
  refine ⟨?_, ?_, ?_⟩
  · simp only [trigger_webhooks]; rw [h1]; simp
  · simp only [trigger_webhooks]; rw [h2]; simp
  · simp only [trigger_webhooks]; rw [h3]; simp

/-! ## Theorems about the wire payload -/

/-- C9 (counterexample): the payload actually posted for a completed,
validation-accepted job — built at tasks.py lines 131-139 and posted
unchanged by `trigger_webhooks_task` — has no `result` field and no `error`
field; its payload field is named `schema`. -/
theorem webhook_payload_missing_result_and_error :
    ((buildWebhookPayload "2025-01-01T00:00:00" "doc-1" "job-1"
        (JVal.obj [])).lookup "result" = none) ∧
    ((buildWebhookPayload "2025-01-01T00:00:00" "doc-1" "job-1"
        (JVal.obj [])).lookup "error" = none) := by
  exact ⟨rfl, rfl⟩

/-- C9 (amended): every dispatched completion payload has exactly the keys
`event`, `timestamp`, `document_id`, `job_id`, `schema`, in this order — a
`schema` object in place of the spec's `result`, and no `error` field. -/
theorem webhook_payload_shape (ts did jid : String) (schema : JVal) :
    (buildWebhookPayload ts did jid schema).map Prod.fst
      = ["event", "timestamp", "document_id", "job_id", "schema"] := by
  rfl

/-! ## Theorems about the shared state store -/

/-- C8 (counterexample): a connection failure during
`get_document_metadata` yields exactly the same caller-visible outcome as a
missing key — `None` — so the caller cannot tell an outage from absent
data. -/
theorem store_outage_equals_not_found :
    get_document_metadata (M := DocMetadata) (fun _ => none)
        (StoreGet.connError "Connection refused")
      = get_document_metadata (fun _ => none) StoreGet.absent := by
  rfl

/-- C8 (amended): both store read operations absorb connection failures —
the `try/except` around each getter catches the exception, logs, and
returns `None`, the same value returned for an absent key; their result
type has no error alternative at all, so no `StoreUnavailable`-like outcome
can reach the caller. -/
theorem store_reads_absorb_outages {M : Type} (parse : String → Option M)
    (e : String) :
    get_document_metadata parse (StoreGet.connError e) = none ∧
    get_document_metadata parse StoreGet.absent = none ∧
    get_job_state parse (StoreGet.connError e) = none ∧
    get_job_state parse StoreGet.absent = none := by
  exact ⟨rfl, rfl, rfl, rfl⟩

/-! ## Theorems about metadata TTL -/

/-- C10 (counterexample): the RecoveryMonitor's re-enqueue update of the
spec's own scenario record (10 minutes old, queue still `PENDING`) saves
the document metadata with a plain `SET` carrying no expiry — a write path
that stores the record without a TTL. -/
theorem recovery_write_drops_ttl :
    (recoverRecord demoMeta QueueStatus.pending 600 "t2").write
      = some { key := "doc:d1", ttl := none } := by
  rfl

/-- C10 (amended): `set_document_metadata` always writes with a TTL
(default 86400 s), but the two direct-Redis update paths do not: whenever
the recovery scan writes at all it writes without expiry, and the
task-failure status update always writes without expiry (clearing any TTL
the record had). -/
theorem metadata_write_ttls (document_id : String) (ttl : Nat)
    (meta : DocMetadata) (qs : QueueStatus) (now : Int)
    (newId excMsg : String) :
    (set_document_metadata_write document_id ttl).ttl = some ttl ∧
    Option.all (fun w => w.ttl == none)
        (recoverRecord meta qs now newId).write = true ∧
    (log_task_failure_update meta excMsg now).2.ttl = none := by
  refine ⟨rfl, ?_, rfl⟩
  rcases hcid : meta.celery_task_id with _ | tid
  · simp [recoverRecord, hcid]
  · by_cases hq : qs = QueueStatus.pending
    · rcases hup : meta.uploaded_at with _ | t
      · simp [recoverRecord, hcid, hq, hup]
      · by_cases hg : now - t > gracePeriod <;>
          simp [recoverRecord, hcid, hq, hup, hg]
    · simp [recoverRecord, hcid, hq]

end DocIngest
